import Mathlib

/-!
Verification of the homebridge-seam plugin core: per-device lock state
reconciliation (webhook + polling + command channels), webhook lifecycle
management (signature verification, registration bookkeeping), and the
command serializer.  Definitions are shallow embeddings of the JavaScript
sources (`webhookServer.js`, `platform.js`, `seamapi.js`, `lockAccessory.js`);
machine numbers are modelled as `Nat`/`Int`/`Rat`, JavaScript truthiness is
made explicit, and the Node `crypto` HMAC-SHA256 primitive is implemented
executably over `Nat`.
-/

set_option maxRecDepth 200000

namespace Seam

/-! ## Bytes, hex and small JavaScript semantics helpers -/

/-- Value of a single hex digit character, if any (both cases accepted,
matching Node `Buffer.from(_, "hex")`). -/
def hexVal (c : Char) : Option Nat :=
  if '0' ≤ c ∧ c ≤ '9' then some (c.toNat - '0'.toNat)
  else if 'a' ≤ c ∧ c ≤ 'f' then some (c.toNat - 'a'.toNat + 10)
  else if 'A' ≤ c ∧ c ≤ 'F' then some (c.toNat - 'A'.toNat + 10)
  else none

/-- Node `Buffer.from(s, "hex")` semantics: decode hex pairs from the left,
stopping (truncating) at the first character that is not a hex digit or at a
trailing unpaired digit. -/
def hexDecodeTrunc : List Char → List Nat
  | c1 :: c2 :: rest =>
    match hexVal c1, hexVal c2 with
    | some a, some b => (16 * a + b) :: hexDecodeTrunc rest
    | _, _ => []
  | _ => []

/-- Lowercase hex digit for a value below 16. -/
def hexDigit (n : Nat) : Char :=
  if n < 10 then Char.ofNat ('0'.toNat + n) else Char.ofNat ('a'.toNat + n - 10)

/-- One byte as two lowercase hex digits. -/
def byteToHex (b : Nat) : List Char := [hexDigit (b / 16), hexDigit (b % 16)]

/-- A byte list as a lowercase hex string, the encoding Node
`hash.digest("hex")` produces. -/
def bytesToHex (bs : List Nat) : String := ⟨bs.foldr (fun b acc => byteToHex b ++ acc) []⟩

/-- UTF-8 encoding of one character as byte values, as Node buffers strings. -/
def utf8Bytes (c : Char) : List Nat :=
  let n := c.toNat
  if n < 0x80 then [n]
  else if n < 0x800 then [0xc0 + n / 64, 0x80 + n % 64]
  else if n < 0x10000 then [0xe0 + n / 4096, 0x80 + (n / 64) % 64, 0x80 + n % 64]
  else [0xf0 + n / 262144, 0x80 + (n / 4096) % 64, 0x80 + (n / 64) % 64, 0x80 + n % 64]

/-- A string as its UTF-8 bytes. -/
def strBytes (s : String) : List Nat := s.data.foldr (fun c acc => utf8Bytes c ++ acc) []

/-- JavaScript `String.prototype.replace` with a string pattern: remove the
first occurrence of the pattern (the replacement being empty), scanning left
to right. -/
def removeFirst (pat : List Char) : List Char → List Char
  | [] => []
  | c :: rest =>
    if pat.isPrefixOf (c :: rest) then (c :: rest).drop pat.length
    else c :: removeFirst pat rest

/-- JavaScript `startsWith`: the candidate is a character-sequence prefix of
the string. -/
def jsStartsWith (s pre : String) : Bool := pre.data.isPrefixOf s.data

/-- JavaScript `||` on optional strings: the first operand that is truthy
(present and nonempty); `none` models both `undefined` and the empty string. -/
def jsOrStr (a b : Option String) : Option String :=
  match a with
  | some s => if s = "" then (match b with | some t => if t = "" then none else some t | none => none) else some s
  | none => match b with | some t => if t = "" then none else some t | none => none

/-- JavaScript `Math.round`: round half toward positive infinity. -/
def jsRound (q : ℚ) : Int := Int.floor (q + 1/2)

/-! ## SHA-256 and HMAC-SHA256 over `Nat`

Executable model of Node `crypto.createHmac("sha256", secret)
.update(payload, "utf8").digest("hex")`.  Words are `Nat` values kept below
`2 ^ 32` by explicit masking. -/

/-- Truncate to a 32-bit word. -/
def mask32 (n : Nat) : Nat := n % 4294967296

/-- 32-bit right rotation. -/
def rotr32 (x n : Nat) : Nat := mask32 ((x >>> n) + ((x % (2 ^ n)) <<< (32 - n)))

/-- SHA-256 round constants (FIPS 180-4, written in decimal). -/
def shaK : List Nat :=
  [1116352408, 1899447441, 3049323471, 3921009573, 961987163,
   1508970993, 2453635748, 2870763221, 3624381080, 310598401,
   607225278, 1426881987, 1925078388, 2162078206, 2614888103,
   3248222580, 3835390401, 4022224774, 264347078, 604807628,
   770255983, 1249150122, 1555081692, 1996064986, 2554220882,
   2821834349, 2952996808, 3210313671, 3336571891, 3584528711,
   113926993, 338241895, 666307205, 773529912, 1294757372,
   1396182291, 1695183700, 1986661051, 2177026350, 2456956037,
   2730485921, 2820302411, 3259730800, 3345764771, 3516065817,
   3600352804, 4094571909, 275423344, 430227734, 506948616,
   659060556, 883997877, 958139571, 1322822218, 1537002063,
   1747873779, 1955562222, 2024104815, 2227730452, 2361852424,
   2428436474, 2756734187, 3204031479, 3329325298]

/-- SHA-256 initial hash state (FIPS 180-4, written in decimal). -/
def shaH0 : List Nat :=
  [1779033703, 3144134277, 1013904242, 2773480762, 1359893119,
   2600822924, 528734635, 1541459225]

/-- Group bytes into big-endian 32-bit words. -/
def wordsOfBytes : List Nat → List Nat
  | b0 :: b1 :: b2 :: b3 :: rest => (((b0 * 256 + b1) * 256 + b2) * 256 + b3) :: wordsOfBytes rest
  | _ => []

/-- Extend the 16 message words to 64 by the SHA-256 schedule recurrence;
`n` counts the remaining words to produce. -/
def shaExtend : Nat → List Nat → List Nat
  | 0, w => w
  | n + 1, w =>
    let i := w.length
    let w15 := w.getD (i - 15) 0
    let w2 := w.getD (i - 2) 0
    let s0 := Nat.xor (Nat.xor (rotr32 w15 7) (rotr32 w15 18)) (w15 >>> 3)
    let s1 := Nat.xor (Nat.xor (rotr32 w2 17) (rotr32 w2 19)) (w2 >>> 10)
    shaExtend n (w ++ [mask32 (w.getD (i - 16) 0 + s0 + w.getD (i - 7) 0 + s1)])

/-- Working state for one SHA-256 compression. -/
structure Sha8 where
  a : Nat
  b : Nat
  c : Nat
  d : Nat
  e : Nat
  f : Nat
  g : Nat
  h : Nat

/-- One SHA-256 round, consuming one constant-word pair. -/
def shaRound (st : Sha8) (kw : Nat × Nat) : Sha8 :=
  let S1 := Nat.xor (Nat.xor (rotr32 st.e 6) (rotr32 st.e 11)) (rotr32 st.e 25)
  let ch := Nat.xor (Nat.land st.e st.f) (Nat.land (Nat.xor st.e 0xffffffff) st.g)
  let t1 := mask32 (st.h + S1 + ch + kw.1 + kw.2)
  let S0 := Nat.xor (Nat.xor (rotr32 st.a 2) (rotr32 st.a 13)) (rotr32 st.a 22)
  let mj := Nat.xor (Nat.xor (Nat.land st.a st.b) (Nat.land st.a st.c)) (Nat.land st.b st.c)
  let t2 := mask32 (S0 + mj)
  ⟨mask32 (t1 + t2), st.a, st.b, st.c, mask32 (st.d + t1), st.e, st.f, st.g⟩

/-- Compress one 64-byte block into the running hash state. -/
def shaCompress (hs : List Nat) (block : List Nat) : List Nat :=
  let w := shaExtend 48 (wordsOfBytes block)
  let init : Sha8 := ⟨hs.getD 0 0, hs.getD 1 0, hs.getD 2 0, hs.getD 3 0,
                      hs.getD 4 0, hs.getD 5 0, hs.getD 6 0, hs.getD 7 0⟩
  let st := (shaK.zip w).foldl shaRound init
  [mask32 (hs.getD 0 0 + st.a), mask32 (hs.getD 1 0 + st.b), mask32 (hs.getD 2 0 + st.c),
   mask32 (hs.getD 3 0 + st.d), mask32 (hs.getD 4 0 + st.e), mask32 (hs.getD 5 0 + st.f),
   mask32 (hs.getD 6 0 + st.g), mask32 (hs.getD 7 0 + st.h)]

/-- SHA-256 padding: append `0x80`, zeros to 56 mod 64, then the bit length
as eight big-endian bytes. -/
def shaPad (msg : List Nat) : List Nat :=
  let len := msg.length
  let zeros := (64 - (len + 9) % 64) % 64
  let bitLen := len * 8
  msg ++ [0x80] ++ List.replicate zeros 0 ++
    [(bitLen >>> 56) % 256, (bitLen >>> 48) % 256, (bitLen >>> 40) % 256, (bitLen >>> 32) % 256,
     (bitLen >>> 24) % 256, (bitLen >>> 16) % 256, (bitLen >>> 8) % 256, bitLen % 256]

/-- Fold the compression over the given number of 64-byte blocks. -/
def shaBlocks : Nat → List Nat → List Nat → List Nat
  | 0, _, hs => hs
  | n + 1, bytes, hs => shaBlocks n (bytes.drop 64) (shaCompress hs (bytes.take 64))

/-- One 32-bit word as four big-endian bytes. -/
def wordBytes (w : Nat) : List Nat := [(w >>> 24) % 256, (w >>> 16) % 256, (w >>> 8) % 256, w % 256]

/-- SHA-256 of a byte list, as 32 digest bytes. -/
def sha256 (msg : List Nat) : List Nat :=
  let padded := shaPad msg
  let hs := shaBlocks (padded.length / 64) padded shaH0
  hs.foldr (fun w acc => wordBytes w ++ acc) []

/-- HMAC-SHA256 over byte lists (block size 64). -/
def hmacSha256 (key msg : List Nat) : List Nat :=
  let k0 := if key.length > 64 then sha256 key else key
  let k := k0 ++ List.replicate (64 - k0.length) 0
  sha256 ((k.map (Nat.xor 0x5c)) ++ sha256 ((k.map (Nat.xor 0x36)) ++ msg))

/-- Node `crypto.createHmac("sha256", secret).update(payload, "utf8")
.digest("hex")`: the hex-encoded HMAC-SHA256 of the payload under the
secret. -/
def hmacSha256Hex (secret payload : String) : String :=
  bytesToHex (hmacSha256 (strBytes secret) (strBytes payload))

/-- Uppercase an ASCII letter, used to build alternative spellings of hex
digests in counterexamples. -/
def upChar (c : Char) : Char := if 'a' ≤ c ∧ c ≤ 'z' then Char.ofNat (c.toNat - 32) else c

/-- Uppercase every character of a string. -/
def upStr (s : String) : String := ⟨s.data.map upChar⟩

/-! ## Data model

`Accessory` is the per-device mutable state of `LockAccessory`
(`lockAccessory.js` constructor: `isLocked`, `batteryLevel`, `isLowBattery`,
`isDoorOpen`, `supportsDoorSensor`, `isCommandInProgress`), together with the
`online` field of the spec data model and the `lastEventTime` watermark that
`webhookServer.js` stores on the accessory.  `lastEventTime : Option Int`
models the JavaScript field that is initially `undefined` and later a number
of milliseconds; JavaScript truthiness of that field is `some t` with
`t ≠ 0`. -/

/-- Origin of a state update (the `source` argument of
`updateStateWithPriority`). -/
inductive Source where
  | polling
  | webhook
  | command
  deriving DecidableEq, Repr

/-- The partial field map of a state update: only fields that are `some` are
present on the JavaScript object passed to the update routine. -/
structure UpdateFields where
  locked : Option Bool := none
  battery_level : Option ℚ := none
  door_open : Option Bool := none
  online : Option Bool := none
  deriving DecidableEq, Repr

/-- Per-device accessory state. -/
structure Accessory where
  deviceId : String
  isLocked : Bool
  batteryLevel : ℚ
  isLowBattery : Bool
  isDoorOpen : Bool
  online : Bool
  supportsDoorSensor : Bool
  isCommandInProgress : Bool
  lastEventTime : Option Int
  deriving DecidableEq, Repr

/-- A webhook event payload after JSON parsing.  `event_type = ""` models a
missing or empty (falsy) `event_type`; `occurred_at` is the already parsed
`new Date(payload.occurred_at).getTime()` value in milliseconds, `none` when
the field is absent or empty (payloads whose date string parses to `NaN` are
outside this model). -/
structure Payload where
  event_type : String
  device_id : String
  occurred_at : Option Int := none
  battery_level : Option ℚ := none
  deriving DecidableEq, Repr

/-- JavaScript truthiness of the stored `lastEventTime` number-or-undefined
field: present and nonzero. -/
def jsTruthyTime : Option Int → Bool
  | none => false
  | some t => t != 0

/-- JavaScript truthiness of an optional numeric payload field
(`payload.battery_level`): present and nonzero. -/
def jsTruthyQ : Option ℚ → Bool
  | none => false
  | some q => q != 0

/-- Event time extraction of `processWebhook`:
`payload.occurred_at ? new Date(payload.occurred_at).getTime() : Date.now()`. -/
def eventTimeOf (p : Payload) (now : Int) : Int := p.occurred_at.getD now

/-! ## State reconciliation -/

/-- Modelled from the spec: `LockAccessory.updateStateWithPriority` is called
by the current `webhookServer.js` and `platform.js` but its defining
`lockAccessory.js` revision is not among the sources (only superseded
revisions with `updateState` are).  Following the spec (section 4.1): when
`commandInFlight` is true and the source is not `command`, an update to the
`locked` field is rejected while `batteryLevel`, `online` and `doorOpen`
fields present in the same update are still applied; only fields present are
written; `lowBattery` is recomputed as `batteryLevel < 20`; door fields are
accepted only when the device supports a door sensor.  This definition is
the arbitration core of the spec operation; the full apply of section 4.1 —
staleness rejection, arbitration, watermark advance — is `applyStateUpdate`
below.  On the webhook path the caller performs the staleness check and the
watermark advance itself (`webhookServer.js` lines 224-230) before the
arbitration core runs, so this routine leaves the watermark to its callers
and the `eventTime` argument only mirrors the JavaScript signature. -/
def updateStateWithPriority (acc : Accessory) (fields : UpdateFields)
    (source : Source) (_eventTime : Int) : Accessory :=
  let fs := if acc.isCommandInProgress && source != Source.command then
      { fields with locked := none }
    else fields
  let newBattery := fs.battery_level.getD acc.batteryLevel
  { acc with
    isLocked := fs.locked.getD acc.isLocked
    batteryLevel := newBattery
    isLowBattery := decide (newBattery < 20)
    isDoorOpen := if acc.supportsDoorSensor then fs.door_open.getD acc.isDoorOpen else acc.isDoorOpen
    online := fs.online.getD acc.online }

/-- `WebhookServer.processWebhook` (`webhookServer.js` lines 199-297),
specialised to the accessory whose `deviceId` the platform `find` would
return: rejects payloads with a falsy `event_type`; rejects events for other
devices; skips the event when the stored watermark is truthy and the event
time is not newer (`accessory.lastEventTime && eventTime <=
accessory.lastEventTime`); otherwise stores the event time as the new
watermark and dispatches on `event_type`.  Battery events apply only when
`payload.battery_level` is truthy; door events apply only when the accessory
supports a door sensor; `device.tampered`, `lock.access_denied` and unknown
event types are log-only. -/
def processWebhook (acc : Accessory) (p : Payload) (now : Int) : Accessory :=
  if p.event_type = "" then acc
  else if p.device_id ≠ acc.deviceId then acc
  else
    let eventTime := eventTimeOf p now
    if jsTruthyTime acc.lastEventTime && decide (eventTime ≤ acc.lastEventTime.getD 0) then acc
    else
      let acc1 := { acc with lastEventTime := some eventTime }
      match p.event_type with
      | "lock.locked" => updateStateWithPriority acc1 { locked := some true } .webhook eventTime
      | "lock.unlocked" => updateStateWithPriority acc1 { locked := some false } .webhook eventTime
      | "device.connected" => updateStateWithPriority acc1 { online := some true } .webhook eventTime
      | "device.disconnected" => updateStateWithPriority acc1 { online := some false } .webhook eventTime
      | "device.low_battery" =>
        if jsTruthyQ p.battery_level then
          updateStateWithPriority acc1 { battery_level := p.battery_level } .webhook eventTime
        else acc1
      | "device.battery_status_changed" =>
        if jsTruthyQ p.battery_level then
          updateStateWithPriority acc1 { battery_level := p.battery_level } .webhook eventTime
        else acc1
      | "device.door_opened" =>
        if acc1.supportsDoorSensor then
          updateStateWithPriority acc1 { door_open := some true } .webhook eventTime
        else acc1
      | "device.door_closed" =>
        if acc1.supportsDoorSensor then
          updateStateWithPriority acc1 { door_open := some false } .webhook eventTime
        else acc1
      | _ => acc1

/-! ## Webhook HTTP receiver -/

/-- `WebhookServer.verifySignature` (`webhookServer.js` lines 48-81).
`secret = none` models a falsy stored secret (verification skipped, accepted);
`signature = none` models a falsy signature argument.  The expected value is
the hex HMAC-SHA256 of the raw body; the provided value has the first
occurrence of `sha256=` removed (JavaScript `replace` with a string pattern);
both sides are hex-decoded with Node `Buffer.from(_, "hex")` truncating
semantics and compared with `crypto.timingSafeEqual`, whose length-mismatch
exception is caught and returned as `false` — so the result is exactly
equality of the decoded byte lists. -/
def verifySignature (secret : Option String) (payload : String)
    (signature : Option String) : Bool :=
  match secret with
  | none => true
  | some sec =>
    match signature with
    | none => false
    | some sig =>
      let expected := hmacSha256Hex sec payload
      let provided := removeFirst "sha256=".data sig.data
      hexDecodeTrunc provided == hexDecodeTrunc expected.data

/-- An incoming HTTP request as `handleRequest` observes it: method, url, the
two signature headers it consults, and the collected body. -/
structure WebhookRequest where
  method : String
  url : String
  seamSignatureHeader : Option String := none
  hubSignatureHeader : Option String := none
  body : String
  deriving DecidableEq, Repr

/-- An HTTP response: status code and body text. -/
structure HttpResponse where
  status : Nat
  body : String
  deriving DecidableEq, Repr

/-- Body of the 200 response, `JSON.stringify(\x7b success: true \x7d)`. -/
def successBody : String := "\x7b\"success\":true\x7d"

/-- Body of the 401 response. -/
def unauthorizedBody : String := "\x7b\"error\":\"Unauthorized\"\x7d"

/-- Body of the 400 response. -/
def badRequestBody : String := "\x7b\"error\":\"Bad Request\"\x7d"

/-- `WebhookServer.handleRequest` (`webhookServer.js` lines 145-194) as a
function of the full collected request.  `parseJson` abstracts the JavaScript
`JSON.parse` builtin (`none` models a parse exception); the signature header
is `headers["x-seam-signature"] || headers["x-hub-signature-256"]` with
JavaScript truthiness; a present signature that fails verification yields
401 and the event is discarded; a parse failure yields 400; otherwise the
payload is processed and the response is 200 with the success body. -/
def handleRequest (path : String) (secret : Option String)
    (parseJson : String → Option Payload) (acc : Accessory) (now : Int)
    (req : WebhookRequest) : HttpResponse × Accessory :=
  if req.method ≠ "POST" ∨ req.url ≠ path then (⟨404, "Not Found"⟩, acc)
  else
    match jsOrStr req.seamSignatureHeader req.hubSignatureHeader with
    | some sig =>
      if verifySignature secret req.body (some sig) then
        match parseJson req.body with
        | some p => (⟨200, successBody⟩, processWebhook acc p now)
        | none => (⟨400, badRequestBody⟩, acc)
      else (⟨401, unauthorizedBody⟩, acc)
    | none =>
      match parseJson req.body with
      | some p => (⟨200, successBody⟩, processWebhook acc p now)
      | none => (⟨400, badRequestBody⟩, acc)

/-! ## Remote status query -/

/-- The `device.properties` subobject as `getLockStatus` reads it; absent
fields are `none`. -/
structure DeviceProps where
  locked : Option Bool := none
  battery_level : Option ℚ := none
  online : Option Bool := none
  door_open : Option Bool := none
  deriving DecidableEq, Repr

/-- The normalized status object `getLockStatus` returns. -/
structure LockStatus where
  locked : Bool
  battery_level : ℚ
  online : Bool
  door_open : Bool
  deriving DecidableEq, Repr

/-- `SeamAPI.getLockStatus` (`seamapi.js` lines 144-164): the battery level is
`device.properties?.battery_level || 100` (so an absent or zero — falsy —
value defaults to 100), then a value `≤ 1` is treated as a fraction and
rescaled with `Math.round(value * 100)`; the boolean fields default to
`false` when absent. -/
def getLockStatus (props : DeviceProps) : LockStatus :=
  let b0 : ℚ := match props.battery_level with
    | some b => if b = 0 then 100 else b
    | none => 100
  let batteryLevel : ℚ := if b0 ≤ 1 then ((jsRound (b0 * 100) : Int) : ℚ) else b0
  { locked := props.locked.getD false
    battery_level := batteryLevel
    online := props.online.getD false
    door_open := props.door_open.getD false }

/-- Staleness of an incoming event time against the stored watermark, as the
spec (section 4.1) words it: the update is stale when a watermark exists and
the event time is at most it. -/
def isStale (w : Option Int) (eventTime : Int) : Bool :=
  match w with
  | some t => decide (eventTime ≤ t)
  | none => false

/-- Modelled from the spec: the full section 4.1 `apply` operation of the
absent `LockAccessory.updateStateWithPriority` — reject the update as a no-op
when `eventTime <= lastEventTime` and the source is not `command`; otherwise
run the command-precedence arbitration of the fields
(`updateStateWithPriority`, the arbitration core) and advance `lastEventTime`
to the event time.  The webhook receiver performs the staleness check and the
advance at its call site (`webhookServer.js` lines 224-230) and therefore
reaches the arbitration core directly in `processWebhook`; the polling
scheduler submits with no call-site guard (`platform.js` line 287), so
polling updates pass through this full apply. -/
def applyStateUpdate (acc : Accessory) (fields : UpdateFields)
    (source : Source) (eventTime : Int) : Accessory :=
  if isStale acc.lastEventTime eventTime && source != Source.command then acc
  else
    { updateStateWithPriority acc fields source eventTime with
      lastEventTime := some eventTime }

/-! ## Polling scheduler -/

/-- Outcome of one `getLockStatus` call during a poll cycle: a rejected
promise (network error, timeout, non-success response), a value that is not a
well-formed status object, or a status. -/
inductive PollResult where
  | pollError
  | invalidStatus
  | ok (status : LockStatus)
  deriving DecidableEq, Repr

/-- The per-device body of `SeamPlatform.pollDevices` (`platform.js` lines
261-297): a rejected status query is caught and leaves the accessory
untouched (the comment in the source: do not update state on error); a
non-object status is logged and skipped; a status is submitted with
`updateStateWithPriority(status, "polling", Date.now())`, all four fields
present — with no call-site staleness guard in `platform.js`, a polling
submission passes through the full spec-level apply (`applyStateUpdate`). -/
def pollOne (acc : Accessory) (r : PollResult) (now : Int) : Accessory :=
  match r with
  | .pollError => acc
  | .invalidStatus => acc
  | .ok s =>
    applyStateUpdate acc
      { locked := some s.locked, battery_level := some s.battery_level,
        door_open := some s.door_open, online := some s.online }
      .polling now

/-- `SeamPlatform.pollDevices`: iterate all configured accessories, each in
its own try/catch, so one failure cannot abort the loop; `results` gives the
outcome of the status query per device id. -/
def pollDevices (accs : List Accessory) (results : String → PollResult)
    (now : Int) : List Accessory :=
  accs.map (fun a => pollOne a (results a.deviceId) now)

/-! ## Webhook registration bookkeeping -/

/-- A remote webhook subscription as the Seam API lists it. -/
structure RemoteWebhook where
  webhook_id : String
  url : String
  deriving DecidableEq, Repr

/-- `WebhookServer.cleanupWebhook` (`webhookServer.js` lines 369-388): delete
every remote subscription whose url is truthy and starts with the configured
base url (`webhook.url && this.config.url && webhook.url.startsWith(
this.config.url)`); a falsy base url deletes nothing.  The remote store is
modelled as the list of subscriptions, each delete succeeding. -/
def cleanupWebhook (baseUrl : String) (store : List RemoteWebhook) : List RemoteWebhook :=
  if baseUrl = "" then store
  else store.filter (fun w => !(w.url != "" && jsStartsWith w.url baseUrl))

/-- `WebhookServer.registerWebhook` (`webhookServer.js` lines 330-364): adopt
an existing subscription exactly when its url equals the computed webhook
url; otherwise clean up base-url-matching subscriptions and create one new
subscription (`newId` standing for the id the remote API returns).  Returns
the new store and the adopted or created webhook id. -/
def registerWebhook (webhookUrl baseUrl newId : String)
    (store : List RemoteWebhook) : List RemoteWebhook × Option String :=
  match store.find? (fun w => w.url == webhookUrl) with
  | some w => (store, some w.webhook_id)
  | none =>
    let cleaned := cleanupWebhook baseUrl store
    (cleaned ++ [⟨newId, webhookUrl⟩], some newId)

/-- `WebhookServer.start` registration effect on the remote store
(`webhookServer.js` lines 86-140), for an enabled configuration with a base
url: a fresh path is generated, the webhook url is `config.url + path`, and
`registerWebhook` runs. -/
def webhookStart (baseUrl path newId : String)
    (store : List RemoteWebhook) : List RemoteWebhook × Option String :=
  registerWebhook (baseUrl ++ path) baseUrl newId store

/-- `WebhookServer.stop` effect on the remote store (`webhookServer.js` lines
393-416): always clean up base-url-matching subscriptions. -/
def webhookStop (baseUrl : String) (store : List RemoteWebhook) : List RemoteWebhook :=
  cleanupWebhook baseUrl store

/-- Number of remote subscriptions whose (truthy) url is a prefix match of
the base url. -/
def basePrefCount (baseUrl : String) (store : List RemoteWebhook) : Nat :=
  (store.filter (fun w => w.url != "" && jsStartsWith w.url baseUrl)).length

/-! ## Command serializer

`LockAccessory.setLockTargetState` and `executeLockCommand`
(`lockAccessory.js` lines 622-692) as a two-task interleaving machine over
the JavaScript event loop: code between `await` points runs atomically.  A
task models one HomeKit set request.  Phases: `entry` (about to run the
synchronous prologue), `waitingPrev` (awaiting `this.commandPromise` of the
command already in flight), `running` (own remote lock/unlock call issued and
not yet settled), `settling ok` (remote call finished with the given outcome
— a rejected call or the 15 second `Promise.race` timeout is `ok = false` —
but the ~2 second settling delay has not elapsed, so `commandPromise` is not
yet settled), `done ok` (the operation returned or threw; the `finally`
cleared `isCommandInProgress` as part of reaching this phase). -/

/-- Phase of one `setLockTargetState` task. -/
inductive CmdPhase where
  | entry
  | waitingPrev
  | running
  | settling (ok : Bool)
  | done (ok : Bool)
  deriving DecidableEq, Repr

/-- A task holds the device busy while its remote command has been issued and
`commandPromise` has not settled. -/
def CmdPhase.busy : CmdPhase → Bool
  | .running => true
  | .settling _ => true
  | _ => false

/-- The task has returned or thrown. -/
def CmdPhase.isDone : CmdPhase → Bool
  | .done _ => true
  | _ => false

/-- Shared state plus the two task phases: `inProgress` is the accessory
field `isCommandInProgress`. -/
structure CmdConfig where
  taskA : CmdPhase
  taskB : CmdPhase
  inProgress : Bool
  deriving DecidableEq, Repr

/-- One atomic step of a task, given its own phase, the phase of the other
task, and the shared flag; produces the new own phase and flag.
- `enterBusy`: the prologue sees `isCommandInProgress` true and awaits
  `this.commandPromise` (lines 628-637).
- `enterFree`: the prologue sees the flag false, sets it, and
  `executeLockCommand` synchronously issues the remote call (lines 640-641,
  661-665).
- `remoteDone`: the remote call settles with success or failure (failure
  covers a rejected call and the 15 second timeout).
- `settleDone`: the 2 second delay elapses (or the catch rethrows),
  `commandPromise` settles, and the `finally` of the owner clears the flag
  before any waiter resumes (lines 643-648) — one atomic microtask run.
- `resumeOk`: a waiter whose awaited command succeeded falls through and
  issues its own command, setting the flag (lines 631, 640-641).
- `resumeFail`: a waiter whose awaited command failed rethrows a
  communication failure without issuing a command (lines 633-636). -/
inductive TaskStep : CmdPhase → CmdPhase → Bool → CmdPhase → Bool → Prop where
  | enterBusy (other : CmdPhase) : TaskStep .entry other true .waitingPrev true
  | enterFree (other : CmdPhase) : TaskStep .entry other false .running true
  | remoteDone (other : CmdPhase) (flag : Bool) (o : Bool) :
      TaskStep .running other flag (.settling o) flag
  | settleDone (other : CmdPhase) (flag : Bool) (o : Bool) :
      TaskStep (.settling o) other flag (.done o) false
  | resumeOk (flag : Bool) : TaskStep .waitingPrev (.done true) flag .running true
  | resumeFail (flag : Bool) : TaskStep .waitingPrev (.done false) flag (.done false) flag

/-- Interleaving of the two tasks. -/
inductive CmdStep : CmdConfig → CmdConfig → Prop where
  | stepA (a b : CmdPhase) (flag : Bool) (a2 : CmdPhase) (f2 : Bool) :
      TaskStep a b flag a2 f2 → CmdStep ⟨a, b, flag⟩ ⟨a2, b, f2⟩
  | stepB (a b : CmdPhase) (flag : Bool) (b2 : CmdPhase) (f2 : Bool) :
      TaskStep b a flag b2 f2 → CmdStep ⟨a, b, flag⟩ ⟨a, b2, f2⟩

/-- Both requests pending, no command in flight. -/
def initCmdConfig : CmdConfig := ⟨.entry, .entry, false⟩

/-- Configurations reachable from the initial one. -/
def CmdReachable (c : CmdConfig) : Prop := Relation.ReflTransGen CmdStep initCmdConfig c

/-- Number of remote lock/unlock calls currently in flight. -/
def inFlightCount (c : CmdConfig) : Nat :=
  (if c.taskA = .running then 1 else 0) + (if c.taskB = .running then 1 else 0)

/-- Inductive invariant of the machine: at most one task is busy, the shared
flag is exactly "some task is busy", and a waiting task implies the other
task is busy or finished. -/
def CmdInv (c : CmdConfig) : Prop :=
  ¬(c.taskA.busy = true ∧ c.taskB.busy = true)
  ∧ c.inProgress = (c.taskA.busy || c.taskB.busy)
  ∧ (c.taskA = .waitingPrev → c.taskB.busy = true ∨ c.taskB.isDone = true)
  ∧ (c.taskB = .waitingPrev → c.taskA.busy = true ∨ c.taskA.isDone = true)

/-! ## Helper lemmas -/

/-- The reconciliation routine never touches the watermark; in the source the
watermark is written by `processWebhook` before dispatching. -/
theorem updateStateWithPriority_lastEventTime (acc : Accessory)
    (fields : UpdateFields) (source : Source) (et : Int) :
    (updateStateWithPriority acc fields source et).lastEventTime = acc.lastEventTime := rfl

/-- The reconciliation routine never changes the device identity. -/
theorem updateStateWithPriority_deviceId (acc : Accessory)
    (fields : UpdateFields) (source : Source) (et : Int) :
    (updateStateWithPriority acc fields source et).deviceId = acc.deviceId := rfl

/-- Conditional dispatch to the reconciliation routine also leaves the
watermark alone. -/
theorem ite_uswp_lastEventTime (b : Prop) [Decidable b] (acc : Accessory)
    (fields : UpdateFields) (source : Source) (et : Int) :
    (if b then updateStateWithPriority acc fields source et else acc).lastEventTime
      = acc.lastEventTime := by
  split
  · exact updateStateWithPriority_lastEventTime acc fields source et
  · rfl

/-- A webhook event whose time is at most a truthy stored watermark is
skipped before any state is touched. -/
theorem processWebhook_skip_of_stale (acc : Accessory) (p : Payload) (now : Int)
    (t : Int) (hw : acc.lastEventTime = some t) (ht : t ≠ 0)
    (hle : eventTimeOf p now ≤ t) : processWebhook acc p now = acc := by
  have hcond : (jsTruthyTime acc.lastEventTime
      && decide (eventTimeOf p now ≤ acc.lastEventTime.getD 0)) = true := by
    simp [hw, jsTruthyTime, ht, hle]
  unfold processWebhook
  by_cases h1 : p.event_type = ""
  · simp [h1]
  · by_cases h2 : p.device_id ≠ acc.deviceId
    · simp [h1, h2]
    · simp [h1, h2, hcond]

/-- When the staleness guard does not fire and the event addresses this
accessory, the watermark is stored before the event dispatch, for every
event type. -/
theorem processWebhook_watermark_set (acc : Accessory) (p : Payload) (now : Int)
    (hev : p.event_type ≠ "") (hdev : p.device_id = acc.deviceId)
    (hpass : (jsTruthyTime acc.lastEventTime
      && decide (eventTimeOf p now ≤ acc.lastEventTime.getD 0)) = false) :
    (processWebhook acc p now).lastEventTime = some (eventTimeOf p now) := by
  unfold processWebhook
  rw [if_neg hev, if_neg (by simp [hdev] : ¬p.device_id ≠ acc.deviceId),
    if_neg (by simp [hpass] : ¬(jsTruthyTime acc.lastEventTime
      && decide (eventTimeOf p now ≤ acc.lastEventTime.getD 0)) = true)]
  split <;>
    first
      | rfl
      | exact ite_uswp_lastEventTime _ _ _ _ _

/-! ## Claim C2 -/

/-- Claim C2: while a command is in flight for a device, a polling or webhook
update is rejected for the `locked` field, while `batteryLevel`, `online` and
`doorOpen` fields present in the same update are still applied (door fields
subject to the door-sensor capability gate of the reconciler). -/
theorem updateStateWithPriority_command_precedence
    (acc : Accessory) (fields : UpdateFields) (source : Source) (et : Int)
    (hc : acc.isCommandInProgress = true) (hs : source ≠ Source.command) :
    (updateStateWithPriority acc fields source et).isLocked = acc.isLocked
    ∧ (∀ b : ℚ, fields.battery_level = some b →
        (updateStateWithPriority acc fields source et).batteryLevel = b)
    ∧ (∀ o : Bool, fields.online = some o →
        (updateStateWithPriority acc fields source et).online = o)
    ∧ (∀ d : Bool, fields.door_open = some d → acc.supportsDoorSensor = true →
        (updateStateWithPriority acc fields source et).isDoorOpen = d) := by
  have hb : (acc.isCommandInProgress && source != Source.command) = true := by
    simp [hc, hs]
  refine ⟨?_, ?_, ?_, ?_⟩
  · simp [updateStateWithPriority, hb]
  · intro b h
    simp [updateStateWithPriority, hb, h]
  · intro o h
    simp [updateStateWithPriority, hb, h]
  · intro d h hd
    simp [updateStateWithPriority, hb, h, hd]

/-- Witness for C2: with a command in flight, a polling update carrying all
four fields leaves `locked` alone and writes battery, online and door. -/
theorem updateStateWithPriority_command_precedence_witness :
    (updateStateWithPriority
        ⟨"d1", true, 100, false, false, true, true, true, none⟩
        { locked := some false, battery_level := some 55,
          door_open := some true, online := some false }
        Source.polling 42).isLocked = true
    ∧ (updateStateWithPriority
        ⟨"d1", true, 100, false, false, true, true, true, none⟩
        { locked := some false, battery_level := some 55,
          door_open := some true, online := some false }
        Source.polling 42).batteryLevel = 55
    ∧ (updateStateWithPriority
        ⟨"d1", true, 100, false, false, true, true, true, none⟩
        { locked := some false, battery_level := some 55,
          door_open := some true, online := some false }
        Source.polling 42).online = false
    ∧ (updateStateWithPriority
        ⟨"d1", true, 100, false, false, true, true, true, none⟩
        { locked := some false, battery_level := some 55,
          door_open := some true, online := some false }
        Source.polling 42).isDoorOpen = true := by
  obtain ⟨h1, h2, h3, h4⟩ := updateStateWithPriority_command_precedence
    ⟨"d1", true, 100, false, false, true, true, true, none⟩
    { locked := some false, battery_level := some 55,
      door_open := some true, online := some false }
    Source.polling 42 rfl (by decide)
  exact ⟨h1, h2 55 rfl, h3 false rfl, h4 true rfl rfl⟩

/-! ## Claim C9 -/

/-- Counterexample for C9 as frozen: a remote battery level of 0 is at most 1,
but `getLockStatus` returns 100 for it (the JavaScript `|| 100` default fires
on the falsy 0), not `Math.round(0 * 100) = 0`. -/
theorem getLockStatus_battery_cex :
    (getLockStatus { battery_level := some 0 }).battery_level = 100
    ∧ ((jsRound ((0 : ℚ) * 100) : Int) : ℚ) = 0
    ∧ (100 : ℚ) ≠ 0 := by
  refine ⟨?_, ?_, by norm_num⟩
  · norm_num [getLockStatus]
  · norm_num [jsRound]

/-- Claim C9 as amended: `getLockStatus` defaults an absent or zero (falsy)
remote battery level to 100; a nonzero value at most 1 is treated as a
fraction and mapped to `Math.round(value * 100)`; a value above 1 is returned
unchanged; for fractional values in (0, 1] the result is an integer in the
range 0-100. -/
theorem getLockStatus_battery_normalization (props : DeviceProps) :
    ((props.battery_level = none ∨ props.battery_level = some 0) →
        (getLockStatus props).battery_level = 100)
    ∧ (∀ b : ℚ, props.battery_level = some b → b ≠ 0 → b ≤ 1 →
        (getLockStatus props).battery_level = ((jsRound (b * 100) : Int) : ℚ))
    ∧ (∀ b : ℚ, props.battery_level = some b → 1 < b →
        (getLockStatus props).battery_level = b)
    ∧ (∀ b : ℚ, props.battery_level = some b → 0 < b → b ≤ 1 →
        0 ≤ (getLockStatus props).battery_level
        ∧ (getLockStatus props).battery_level ≤ 100) := by
  refine ⟨?_, ?_, ?_, ?_⟩
  · rintro (h | h) <;> norm_num [getLockStatus, h]
  · intro b h hne hle
    simp [getLockStatus, h, hne, hle]
  · intro b h hlt
    have hne : ¬b = 0 := by intro h0; rw [h0] at hlt; norm_num at hlt
    simp [getLockStatus, h, hne, not_le.mpr hlt]
  · intro b h hpos hle
    have hne : ¬b = 0 := ne_of_gt hpos
    have hval : (getLockStatus props).battery_level = ((jsRound (b * 100) : Int) : ℚ) := by
      simp [getLockStatus, h, hne, hle]
    have hlow : (0 : Int) ≤ jsRound (b * 100) := by
      unfold jsRound
      exact Int.floor_nonneg.mpr (by nlinarith)
    have hhigh : jsRound (b * 100) ≤ 100 := by
      unfold jsRound
      have h1 : b * 100 + 1/2 ≤ 100 + 1/2 := by nlinarith
      calc ⌊b * 100 + 1/2⌋ ≤ ⌊(100 : ℚ) + 1/2⌋ := Int.floor_le_floor h1
        _ = 100 := by norm_num [Int.floor_eq_iff]
    constructor
    · rw [hval]
      exact_mod_cast hlow
    · rw [hval]
      exact_mod_cast hhigh

/-- Witness for C9 as amended: a fractional battery level of one half maps to
`Math.round(50) = 50`. -/
theorem getLockStatus_battery_normalization_witness :
    (getLockStatus { battery_level := some (1/2) }).battery_level
      = ((jsRound ((1/2 : ℚ) * 100) : Int) : ℚ) :=
  (getLockStatus_battery_normalization { battery_level := some (1/2) }).2.1 (1/2) rfl
    (by norm_num) (by norm_num)

/-! ## Claim C8 -/

/-- Claim C8: a poll cycle maps every configured accessory through its own
query outcome — a failed or malformed status query leaves that accessory
completely unchanged, and every other accessory is still processed with its
own outcome regardless. -/
theorem pollDevices_error_isolation (accs : List Accessory)
    (results : String → PollResult) (now : Int) (i : Nat)
    (hi : i < accs.length) (dflt : Accessory) :
    (pollDevices accs results now).length = accs.length
    ∧ (pollDevices accs results now).getD i dflt
        = pollOne (accs.getD i dflt) (results ((accs.getD i dflt).deviceId)) now
    ∧ (results ((accs.getD i dflt).deviceId) = PollResult.pollError →
        (pollDevices accs results now).getD i dflt = accs.getD i dflt)
    ∧ (results ((accs.getD i dflt).deviceId) = PollResult.invalidStatus →
        (pollDevices accs results now).getD i dflt = accs.getD i dflt) := by
  have hmap : (pollDevices accs results now).getD i dflt
      = pollOne (accs.getD i dflt) (results ((accs.getD i dflt).deviceId)) now := by
    unfold pollDevices
    rw [List.getD_eq_getElem?_getD, List.getElem?_map, List.getElem?_eq_getElem hi,
      List.getD_eq_getElem?_getD, List.getElem?_eq_getElem hi]
    rfl
  refine ⟨by simp [pollDevices], hmap, ?_, ?_⟩ <;> intro hr <;> rw [hmap, hr] <;> rfl

/-- Witness for C8: in a two-device cycle where the first status query fails,
the first accessory is unchanged while the second still receives its update. -/
theorem pollDevices_error_isolation_witness :
    (pollDevices
        [⟨"d1", true, 100, false, false, true, false, false, none⟩,
         ⟨"d2", true, 100, false, false, true, false, false, none⟩]
        (fun id => if id = "d1" then PollResult.pollError
          else PollResult.ok ⟨false, 50, true, false⟩) 1000).getD 0
        ⟨"d1", true, 100, false, false, true, false, false, none⟩
      = ⟨"d1", true, 100, false, false, true, false, false, none⟩ := by
  have h := (pollDevices_error_isolation
    [⟨"d1", true, 100, false, false, true, false, false, none⟩,
     ⟨"d2", true, 100, false, false, true, false, false, none⟩]
    (fun id => if id = "d1" then PollResult.pollError
      else PollResult.ok ⟨false, 50, true, false⟩) 1000 0 (by decide)
    ⟨"d1", true, 100, false, false, true, false, false, none⟩).2.2.1
  exact h (by decide)

/-! ## Claim C1 -/

/-- Counterexample for C1 as frozen: with a fresh accessory, a webhook update
at event time 0 is accepted and sets the watermark to 0, but the staleness
guard treats a zero watermark as falsy and skips the check, so a second
non-command update with an equal (hence not newer) event time still changes
the state instead of being a no-op. -/
theorem processWebhook_stale_rejection_cex :
    eventTimeOf { event_type := "lock.locked", device_id := "d1", occurred_at := some 0 } 7
        ≤ eventTimeOf { event_type := "lock.unlocked", device_id := "d1", occurred_at := some 0 } 5
    ∧ (processWebhook ⟨"d1", true, 100, false, false, true, false, false, none⟩
          { event_type := "lock.unlocked", device_id := "d1", occurred_at := some 0 } 5).isLocked
        = false
    ∧ processWebhook (processWebhook ⟨"d1", true, 100, false, false, true, false, false, none⟩
          { event_type := "lock.unlocked", device_id := "d1", occurred_at := some 0 } 5)
          { event_type := "lock.locked", device_id := "d1", occurred_at := some 0 } 7
        ≠ processWebhook ⟨"d1", true, 100, false, false, true, false, false, none⟩
          { event_type := "lock.unlocked", device_id := "d1", occurred_at := some 0 } 5
    ∧ (processWebhook (processWebhook ⟨"d1", true, 100, false, false, true, false, false, none⟩
          { event_type := "lock.unlocked", device_id := "d1", occurred_at := some 0 } 5)
          { event_type := "lock.locked", device_id := "d1", occurred_at := some 0 } 7).isLocked
        = true := by
  decide

/-- The spec-level apply is a no-op on a stale non-command update. -/
theorem applyStateUpdate_stale (acc : Accessory) (fields : UpdateFields)
    (source : Source) (e t : Int) (hw : acc.lastEventTime = some t)
    (hle : e ≤ t) (hsrc : source ≠ Source.command) :
    applyStateUpdate acc fields source e = acc := by
  have hc : (isStale acc.lastEventTime e && source != Source.command) = true := by
    simp [isStale, hw, hle, hsrc]
  simp [applyStateUpdate, hc]

/-- The spec-level apply never lowers a stored watermark for a non-command
source: a stale update leaves it alone, an accepted one raises it to the
(strictly newer) event time. -/
theorem applyStateUpdate_watermark (acc : Accessory) (fields : UpdateFields)
    (source : Source) (e t : Int) (hw : acc.lastEventTime = some t)
    (hsrc : source ≠ Source.command) :
    ∃ t2 : Int, (applyStateUpdate acc fields source e).lastEventTime = some t2 ∧ t ≤ t2 := by
  by_cases hle : e ≤ t
  · rw [applyStateUpdate_stale acc fields source e t hw hle hsrc]
    exact ⟨t, hw, le_refl t⟩
  · have hc : (isStale acc.lastEventTime e && source != Source.command) = false := by
      simp [isStale, hw, hle]
    simp only [applyStateUpdate, hc, Bool.false_eq_true, if_false]
    exact ⟨e, rfl, le_of_lt (lt_of_not_le hle)⟩

/-- A poll outcome at a receipt time not newer than the stored watermark is a
no-op on the accessory: errors and malformed statuses are skipped by the poll
loop, and a status goes through the spec-level apply, which rejects it. -/
theorem pollOne_stale (acc : Accessory) (r : PollResult) (now t : Int)
    (hw : acc.lastEventTime = some t) (hle : now ≤ t) :
    pollOne acc r now = acc := by
  cases r with
  | pollError => rfl
  | invalidStatus => rfl
  | ok s => exact applyStateUpdate_stale acc _ Source.polling now t hw hle (by decide)

/-- A poll outcome never lowers a stored watermark. -/
theorem pollOne_watermark (acc : Accessory) (r : PollResult) (now t : Int)
    (hw : acc.lastEventTime = some t) :
    ∃ t2 : Int, (pollOne acc r now).lastEventTime = some t2 ∧ t ≤ t2 := by
  cases r with
  | pollError => exact ⟨t, hw, le_refl t⟩
  | invalidStatus => exact ⟨t, hw, le_refl t⟩
  | ok s => exact applyStateUpdate_watermark acc _ Source.polling now t hw (by decide)

/-- Claim C1 as amended: whenever the stored watermark is set and nonzero, it
is monotonically non-decreasing and any incoming non-command update — webhook
or polling — whose event time is at most the watermark is a complete no-op.
The one correction the code forces: the webhook receiver's staleness guard
(`accessory.lastEventTime && eventTime <= accessory.lastEventTime`) treats an
unset or zero watermark as absent, so after an accepted update with event
time 0 a later webhook update with an equal or smaller event time is still
applied. -/
theorem processWebhook_stale_rejection (acc : Accessory) (p : Payload) (now : Int)
    (t : Int) (hw : acc.lastEventTime = some t) (ht : t ≠ 0) :
    ((eventTimeOf p now ≤ t → processWebhook acc p now = acc)
      ∧ ∃ t2 : Int, (processWebhook acc p now).lastEventTime = some t2 ∧ t ≤ t2)
    ∧ ∀ (r : PollResult) (now2 : Int),
        (now2 ≤ t → pollOne acc r now2 = acc)
        ∧ ∃ t2 : Int, (pollOne acc r now2).lastEventTime = some t2 ∧ t ≤ t2 := by
  constructor
  · constructor
    · intro hle
      exact processWebhook_skip_of_stale acc p now t hw ht hle
    · by_cases h1 : p.event_type = ""
      · exact ⟨t, by simp [processWebhook, h1, hw], le_refl t⟩
      · by_cases h2 : p.device_id = acc.deviceId
        · by_cases hle : eventTimeOf p now ≤ t
          · rw [processWebhook_skip_of_stale acc p now t hw ht hle]
            exact ⟨t, hw, le_refl t⟩
          · have hpass : (jsTruthyTime acc.lastEventTime
                && decide (eventTimeOf p now ≤ acc.lastEventTime.getD 0)) = false := by
              simp [hw, jsTruthyTime, ht, hle]
            exact ⟨eventTimeOf p now, processWebhook_watermark_set acc p now h1 h2 hpass,
              le_of_lt (lt_of_not_le hle)⟩
        · exact ⟨t, by simp [processWebhook, h1, h2, hw], le_refl t⟩
  · intro r now2
    exact ⟨fun hle => pollOne_stale acc r now2 t hw hle, pollOne_watermark acc r now2 t hw⟩

/-- Witness for C1 as amended: with watermark 1000, a webhook event at time
900 is dropped without touching the accessory, and so is a poll result
received at time 900. -/
theorem processWebhook_stale_rejection_witness :
    processWebhook ⟨"d1", false, 100, false, false, true, false, false, some 1000⟩
        { event_type := "lock.locked", device_id := "d1", occurred_at := some 900 } 5000
      = ⟨"d1", false, 100, false, false, true, false, false, some 1000⟩
    ∧ pollOne ⟨"d1", false, 100, false, false, true, false, false, some 1000⟩
        (PollResult.ok ⟨true, 50, true, false⟩) 900
      = ⟨"d1", false, 100, false, false, true, false, false, some 1000⟩ :=
  ⟨((processWebhook_stale_rejection
      ⟨"d1", false, 100, false, false, true, false, false, some 1000⟩
      { event_type := "lock.locked", device_id := "d1", occurred_at := some 900 } 5000
      1000 rfl (by decide)).1).1 (by decide),
   ((processWebhook_stale_rejection
      ⟨"d1", false, 100, false, false, true, false, false, some 1000⟩
      { event_type := "lock.locked", device_id := "d1", occurred_at := some 900 } 5000
      1000 rfl (by decide)).2 (PollResult.ok ⟨true, 50, true, false⟩) 900).1 (by decide)⟩

/-! ## Claim C10 -/

/-- Counterexample for C10 as frozen: an unknown-type event at time 0, newer
than the current watermark of -5, advances the watermark to 0 while changing
no state field; but because the advanced watermark 0 is falsy, a later event
with an equal (not larger) event time is not discarded and changes the
state. -/
theorem processWebhook_watermark_cex :
    (-5 : Int) < eventTimeOf { event_type := "seam.mystery", device_id := "d1", occurred_at := some 0 } 9
    ∧ (processWebhook ⟨"d1", true, 100, false, false, true, false, false, some (-5)⟩
          { event_type := "seam.mystery", device_id := "d1", occurred_at := some 0 } 9).lastEventTime
        = some 0
    ∧ (processWebhook ⟨"d1", true, 100, false, false, true, false, false, some (-5)⟩
          { event_type := "seam.mystery", device_id := "d1", occurred_at := some 0 } 9).isLocked
        = true
    ∧ eventTimeOf { event_type := "lock.unlocked", device_id := "d1", occurred_at := some 0 } 9
        ≤ eventTimeOf { event_type := "seam.mystery", device_id := "d1", occurred_at := some 0 } 9
    ∧ processWebhook (processWebhook ⟨"d1", true, 100, false, false, true, false, false, some (-5)⟩
          { event_type := "seam.mystery", device_id := "d1", occurred_at := some 0 } 9)
          { event_type := "lock.unlocked", device_id := "d1", occurred_at := some 0 } 9
        ≠ processWebhook ⟨"d1", true, 100, false, false, true, false, false, some (-5)⟩
          { event_type := "seam.mystery", device_id := "d1", occurred_at := some 0 } 9 := by
  decide

/-- Claim C10 as amended: for a well-formed event addressed to this accessory
that passes the staleness guard (in particular whenever its event time
strictly exceeds a truthy watermark), the watermark is set to the event time
before the event-type dispatch, for every event type including unknown ones;
when the stored event time is nonzero, every later event with a smaller or
equal event time is discarded with the state completely unchanged. -/
theorem processWebhook_watermark_advance (acc : Accessory) (p : Payload) (now : Int)
    (hev : p.event_type ≠ "") (hdev : p.device_id = acc.deviceId)
    (hnew : jsTruthyTime acc.lastEventTime = true →
      acc.lastEventTime.getD 0 < eventTimeOf p now) :
    (processWebhook acc p now).lastEventTime = some (eventTimeOf p now)
    ∧ (eventTimeOf p now ≠ 0 →
        ∀ (p2 : Payload) (now2 : Int), eventTimeOf p2 now2 ≤ eventTimeOf p now →
          processWebhook (processWebhook acc p now) p2 now2 = processWebhook acc p now) := by
  have hpass : (jsTruthyTime acc.lastEventTime
      && decide (eventTimeOf p now ≤ acc.lastEventTime.getD 0)) = false := by
    cases hjt : jsTruthyTime acc.lastEventTime
    · simp
    · simp [not_le.mpr (hnew hjt)]
  have hset := processWebhook_watermark_set acc p now hev hdev hpass
  refine ⟨hset, ?_⟩
  intro hz p2 now2 hle
  exact processWebhook_skip_of_stale _ p2 now2 (eventTimeOf p now) hset hz hle

/-- Witness for C10 as amended: an unknown event at time 50 on a fresh
accessory advances the watermark to 50, and a later lock event at time 40 is
then discarded. -/
theorem processWebhook_watermark_advance_witness :
    (processWebhook ⟨"d1", true, 100, false, false, true, false, false, none⟩
        { event_type := "seam.mystery", device_id := "d1", occurred_at := some 50 } 9).lastEventTime
      = some 50
    ∧ processWebhook (processWebhook ⟨"d1", true, 100, false, false, true, false, false, none⟩
          { event_type := "seam.mystery", device_id := "d1", occurred_at := some 50 } 9)
          { event_type := "lock.unlocked", device_id := "d1", occurred_at := some 40 } 9
        = processWebhook ⟨"d1", true, 100, false, false, true, false, false, none⟩
          { event_type := "seam.mystery", device_id := "d1", occurred_at := some 50 } 9 := by
  have h := processWebhook_watermark_advance
    ⟨"d1", true, 100, false, false, true, false, false, none⟩
    { event_type := "seam.mystery", device_id := "d1", occurred_at := some 50 } 9
    (by decide) rfl (by decide)
  exact ⟨h.1, h.2 (by decide)
    { event_type := "lock.unlocked", device_id := "d1", occurred_at := some 40 } 9 (by decide)⟩

/-! ## Claim C5 -/

/-- Claim C5: the receiver answers 404 exactly when the method is not POST or
the path is wrong; 401 exactly when a (truthy) signature header is present
and fails verification; 400 exactly when the signature check is passed or
skipped but the body does not parse; and 200 with the success body exactly
when the signature check is passed or skipped and the body parses — whatever
the parsed event then maps to. -/
theorem handleRequest_response_mapping (path : String) (secret : Option String)
    (parseJson : String → Option Payload) (acc : Accessory) (now : Int)
    (req : WebhookRequest) :
    ((handleRequest path secret parseJson acc now req).1.status = 404 ↔
        ¬(req.method = "POST" ∧ req.url = path))
    ∧ ((handleRequest path secret parseJson acc now req).1.status = 401 ↔
        req.method = "POST" ∧ req.url = path ∧
        ∃ s : String, jsOrStr req.seamSignatureHeader req.hubSignatureHeader = some s ∧
          verifySignature secret req.body (some s) = false)
    ∧ ((handleRequest path secret parseJson acc now req).1.status = 400 ↔
        req.method = "POST" ∧ req.url = path ∧
        (∀ s : String, jsOrStr req.seamSignatureHeader req.hubSignatureHeader = some s →
          verifySignature secret req.body (some s) = true) ∧
        parseJson req.body = none)
    ∧ ((handleRequest path secret parseJson acc now req).1 = ⟨200, successBody⟩ ↔
        req.method = "POST" ∧ req.url = path ∧
        (∀ s : String, jsOrStr req.seamSignatureHeader req.hubSignatureHeader = some s →
          verifySignature secret req.body (some s) = true) ∧
        ∃ pl : Payload, parseJson req.body = some pl) := by
  by_cases hm : req.method = "POST" ∧ req.url = path
  · obtain ⟨hm1, hm2⟩ := hm
    have hnot : ¬(req.method ≠ "POST" ∨ req.url ≠ path) := by simp [hm1, hm2]
    rcases hsig : jsOrStr req.seamSignatureHeader req.hubSignatureHeader with _ | s
    · rcases hp : parseJson req.body with _ | pl <;>
        simp [handleRequest, hnot, hsig, hp, hm1, hm2, successBody]
    · by_cases hv : verifySignature secret req.body (some s) = true
      · rcases hp : parseJson req.body with _ | pl <;>
          simp [handleRequest, hnot, hsig, hp, hv, hm1, hm2, successBody]
      · have hv2 : verifySignature secret req.body (some s) = false := by
          simpa using hv
        simp [handleRequest, hnot, hsig, hv2, hm1, hm2]
  · have hor : req.method ≠ "POST" ∨ req.url ≠ path := by tauto
    rcases hor with h | h <;> simp [handleRequest, h, hm]

/-- Witness for C5: a GET request to the webhook path is answered 404. -/
theorem handleRequest_response_mapping_witness :
    (handleRequest "/p" none (fun _ => none)
        ⟨"d1", true, 100, false, false, true, false, false, none⟩ 0
        { method := "GET", url := "/p", body := "" }).1.status = 404 :=
  (handleRequest_response_mapping "/p" none (fun _ => none)
    ⟨"d1", true, 100, false, false, true, false, false, none⟩ 0
    { method := "GET", url := "/p", body := "" }).1.mpr (by decide)

/-! ## Claim C6 -/

/-- Counterexample for C6 as frozen: the uppercase spelling of the correct
digest differs from the digest string the receiver computes, yet it verifies,
because the comparison is between hex-decoded byte buffers
(`crypto.timingSafeEqual` on `Buffer.from(_, "hex")`), which is
case-insensitive — so "processed exactly when the provided signature equals
this digest" fails as stated. -/
theorem verifySignature_equality_cex :
    verifySignature (some "s") "b" (some (upStr (hmacSha256Hex "s" "b"))) = true
    ∧ upStr (hmacSha256Hex "s" "b") ≠ hmacSha256Hex "s" "b" :=
  ⟨by decide, by decide⟩

/-- Claim C6 as amended: with a secret configured, a request with a signature
is accepted exactly when the provided value, after removal of the first
occurrence of `sha256=`, hex-decodes (Node truncating, case-insensitive hex)
to the same byte string as the hex HMAC-SHA256 digest of the raw body under
the session secret; a failing signature yields 401 with the event discarded
(accessory unchanged); a request without a signature header is processed as
unverified — it is never answered 401. -/
theorem verifySignature_semantics (sec : String) (path : String)
    (parseJson : String → Option Payload) (acc : Accessory) (now : Int) :
    (∀ body sig : String, verifySignature (some sec) body (some sig) = true ↔
        hexDecodeTrunc (removeFirst "sha256=".data sig.data)
          = hexDecodeTrunc (hmacSha256Hex sec body).data)
    ∧ (∀ (req : WebhookRequest) (s : String), req.method = "POST" → req.url = path →
        jsOrStr req.seamSignatureHeader req.hubSignatureHeader = some s →
        verifySignature (some sec) req.body (some s) = false →
        handleRequest path (some sec) parseJson acc now req
          = (⟨401, unauthorizedBody⟩, acc))
    ∧ (∀ req : WebhookRequest, req.method = "POST" → req.url = path →
        jsOrStr req.seamSignatureHeader req.hubSignatureHeader = none →
        (handleRequest path (some sec) parseJson acc now req).1.status ≠ 401
        ∧ (handleRequest path (some sec) parseJson acc now req).1.status ≠ 404) := by
  refine ⟨?_, ?_, ?_⟩
  · intro body sig
    simp [verifySignature]
  · intro req s hm hu hsig hv
    have hnot : ¬(req.method ≠ "POST" ∨ req.url ≠ path) := by simp [hm, hu]
    simp [handleRequest, hnot, hsig, hv]
  · intro req hm hu hsig
    have hnot : ¬(req.method ≠ "POST" ∨ req.url ≠ path) := by simp [hm, hu]
    rcases hp : parseJson req.body with _ | pl <;>
      simp [handleRequest, hnot, hsig, hp]

/-- Witness for C6 as amended: a request carrying an invalid signature against
secret "s" is answered 401 and the accessory is untouched. -/
theorem verifySignature_semantics_witness :
    handleRequest "/p" (some "s") (fun _ => none)
        ⟨"d1", true, 100, false, false, true, false, false, none⟩ 0
        { method := "POST", url := "/p", seamSignatureHeader := some "zz",
          hubSignatureHeader := none, body := "b" }
      = (⟨401, unauthorizedBody⟩, ⟨"d1", true, 100, false, false, true, false, false, none⟩) :=
  (verifySignature_semantics "s" "/p" (fun _ => none)
      ⟨"d1", true, 100, false, false, true, false, false, none⟩ 0).2.1
    { method := "POST", url := "/p", seamSignatureHeader := some "zz",
      hubSignatureHeader := none, body := "b" }
    "zz" rfl rfl (by decide) (by decide)

/-! ## Claim C7 -/

/-- A list is a prefix of itself followed by anything. -/
theorem isPrefixOf_self_append {α : Type} [DecidableEq α] (l t : List α) :
    l.isPrefixOf (l ++ t) = true := by
  rw [List.isPrefixOf_iff_prefix]
  exact List.prefix_append l t

/-- A url built as base plus path starts with the base. -/
theorem jsStartsWith_append (b p : String) : jsStartsWith (b ++ p) b = true := by
  unfold jsStartsWith
  rw [String.data_append]
  exact isPrefixOf_self_append b.data p.data

/-- A url built from a nonempty base is nonempty. -/
theorem append_ne_empty_of_ne (b p : String) (hb : b ≠ "") : b ++ p ≠ "" := by
  intro h
  apply hb
  have h2 : b.data ++ p.data = ([] : List Char) := by
    have h3 := congrArg String.data h
    rwa [String.data_append] at h3
  exact String.ext (List.append_eq_nil.mp h2).1

/-- After a cleanup, no subscription with a base-url prefix match remains. -/
theorem basePrefCount_cleanup (baseUrl : String) (store : List RemoteWebhook)
    (hb : baseUrl ≠ "") : basePrefCount baseUrl (cleanupWebhook baseUrl store) = 0 := by
  unfold basePrefCount cleanupWebhook
  rw [if_neg hb, List.filter_filter]
  simp [Bool.and_not_self]

/-- After a cleanup with a nonempty base url, no remaining subscription can
target any url of the form base plus path. -/
theorem cleanup_find_none (baseUrl path : String) (store : List RemoteWebhook)
    (hb : baseUrl ≠ "") :
    (cleanupWebhook baseUrl store).find? (fun w => w.url == baseUrl ++ path) = none := by
  rw [List.find?_eq_none]
  intro w hw
  simp only [beq_iff_eq]
  intro hurl
  unfold cleanupWebhook at hw
  rw [if_neg hb] at hw
  have hkeep := List.of_mem_filter hw
  have hmatch : (w.url != "" && jsStartsWith w.url baseUrl) = true := by
    rw [hurl]
    simp [jsStartsWith_append, append_ne_empty_of_ne baseUrl path hb]
  simp [hmatch] at hkeep

/-- Claim C7: a stop followed by a start (fresh path, new registration) leaves
at most one remote subscription whose url prefix-matches the base url — the
stop sweeps all of them, the start finds no exact match on the swept store,
sweeps again, and creates exactly one. -/
theorem webhook_restart_single_subscription (store : List RemoteWebhook)
    (baseUrl path newId : String) (hb : baseUrl ≠ "") :
    basePrefCount baseUrl
      (webhookStart baseUrl path newId (webhookStop baseUrl store)).1 ≤ 1 := by
  unfold webhookStart webhookStop registerWebhook
  rw [cleanup_find_none baseUrl path store hb]
  show basePrefCount baseUrl
    (cleanupWebhook baseUrl (cleanupWebhook baseUrl store) ++ [⟨newId, baseUrl ++ path⟩]) ≤ 1
  have h1 := basePrefCount_cleanup baseUrl (cleanupWebhook baseUrl store) hb
  unfold basePrefCount at h1 ⊢
  rw [List.filter_append, List.length_append, h1]
  have hnew : ((baseUrl ++ path) != "" && jsStartsWith (baseUrl ++ path) baseUrl) = true := by
    simp [jsStartsWith_append, append_ne_empty_of_ne baseUrl path hb]
  simp [List.filter, hnew]

/-- Witness for C7: a store holding two stale subscriptions for the base url
and one foreign subscription ends the cycle with at most one base-url
subscription. -/
theorem webhook_restart_single_subscription_witness :
    basePrefCount "https://h.example"
      (webhookStart "https://h.example" "/p-new" "wh-3"
        (webhookStop "https://h.example"
          [⟨"wh-1", "https://h.example/p-old"⟩, ⟨"wh-2", "https://h.example/p-older"⟩,
           ⟨"wh-x", "https://other.example/q"⟩])).1 ≤ 1 :=
  webhook_restart_single_subscription
    [⟨"wh-1", "https://h.example/p-old"⟩, ⟨"wh-2", "https://h.example/p-older"⟩,
     ⟨"wh-x", "https://other.example/q"⟩]
    "https://h.example" "/p-new" "wh-3" (by decide)

/-! ## Claims C3 and C4: command machine invariants -/

/-- The invariant holds initially. -/
theorem cmdInv_init : CmdInv initCmdConfig :=
  ⟨by decide, rfl, fun h => absurd h (by decide), fun h => absurd h (by decide)⟩

/-- The invariant is preserved by every step. -/
theorem cmdInv_step (c c2 : CmdConfig) (hinv : CmdInv c) (hs : CmdStep c c2) :
    CmdInv c2 := by
  cases hs with
  | stepA a b flag a2 f2 ht =>
    cases ht <;>
      first
        | (cases b <;> simp_all [CmdInv, CmdPhase.busy, CmdPhase.isDone])
        | simp_all [CmdInv, CmdPhase.busy, CmdPhase.isDone]
  | stepB a b flag b2 f2 ht =>
    cases ht <;>
      first
        | (cases a <;> simp_all [CmdInv, CmdPhase.busy, CmdPhase.isDone])
        | simp_all [CmdInv, CmdPhase.busy, CmdPhase.isDone]

/-- Every reachable configuration satisfies the invariant. -/
theorem cmdReachable_inv (c : CmdConfig) (h : CmdReachable c) : CmdInv c := by
  induction h with
  | refl => exact cmdInv_init
  | tail _ hstep ih => exact cmdInv_step _ _ ih hstep

/-- Claim C3: in every reachable configuration of two concurrent
`setLockTargetState` requests for the same device, at most one remote
lock/unlock call is in flight — a second caller entering while a command is
in flight waits on the stored command promise and can only issue its own
remote call after the first has settled. -/
theorem execute_at_most_one_remote (c : CmdConfig) (h : CmdReachable c) :
    inFlightCount c ≤ 1 := by
  obtain ⟨hm, -, -, -⟩ := cmdReachable_inv c h
  unfold inFlightCount
  by_cases ha : c.taskA = CmdPhase.running
  · by_cases hb2 : c.taskB = CmdPhase.running
    · exact absurd ⟨by simp [ha, CmdPhase.busy], by simp [hb2, CmdPhase.busy]⟩ hm
    · simp [ha, hb2]
  · by_cases hb2 : c.taskB = CmdPhase.running <;> simp [ha, hb2]

/-- Witness for C3: with one command running and the other request waiting on
it, exactly one remote call is in flight. -/
theorem execute_at_most_one_remote_witness :
    inFlightCount ⟨CmdPhase.running, CmdPhase.waitingPrev, true⟩ ≤ 1 :=
  execute_at_most_one_remote ⟨CmdPhase.running, CmdPhase.waitingPrev, true⟩
    (Relation.ReflTransGen.tail
      (Relation.ReflTransGen.tail Relation.ReflTransGen.refl
        (CmdStep.stepA CmdPhase.entry CmdPhase.entry false CmdPhase.running true
          (TaskStep.enterFree CmdPhase.entry)))
      (CmdStep.stepB CmdPhase.running CmdPhase.entry true CmdPhase.waitingPrev true
        (TaskStep.enterBusy CmdPhase.running)))

/-- Claim C4: on every step in which a task reaches its return-or-throw point
(remote success, remote failure or timeout, or rethrow of a failed awaited
command), the shared `isCommandInProgress` flag is false immediately after —
the `finally` release runs on every exit path, so no device stays locked out
of reconciliation. -/
theorem commandInFlight_always_released (c c2 : CmdConfig)
    (hr : CmdReachable c) (hs : CmdStep c c2)
    (hdone : (c.taskA.isDone = false ∧ c2.taskA.isDone = true)
      ∨ (c.taskB.isDone = false ∧ c2.taskB.isDone = true)) :
    c2.inProgress = false := by
  have hinv := cmdReachable_inv c hr
  cases hs with
  | stepA a b flag a2 f2 ht =>
    cases ht <;> simp_all [CmdInv, CmdPhase.busy, CmdPhase.isDone]
  | stepB a b flag b2 f2 ht =>
    cases ht <;> simp_all [CmdInv, CmdPhase.busy, CmdPhase.isDone]

/-- Witness for C4: a successful command settling its promise leaves the flag
cleared. -/
theorem commandInFlight_always_released_witness :
    ({ taskA := CmdPhase.done true, taskB := CmdPhase.entry, inProgress := false } :
      CmdConfig).inProgress = false :=
  commandInFlight_always_released ⟨CmdPhase.settling true, CmdPhase.entry, true⟩
    ⟨CmdPhase.done true, CmdPhase.entry, false⟩
    (Relation.ReflTransGen.tail
      (Relation.ReflTransGen.tail Relation.ReflTransGen.refl
        (CmdStep.stepA CmdPhase.entry CmdPhase.entry false CmdPhase.running true
          (TaskStep.enterFree CmdPhase.entry)))
      (CmdStep.stepA CmdPhase.running CmdPhase.entry true (CmdPhase.settling true) true
        (TaskStep.remoteDone CmdPhase.entry true true)))
    (CmdStep.stepA (CmdPhase.settling true) CmdPhase.entry true (CmdPhase.done true) false
      (TaskStep.settleDone CmdPhase.entry true true))
    (Or.inl ⟨rfl, rfl⟩)

end Seam
